import Mathlib

/-!
Verification development for the UniversalRadioWSN hardware-abstraction layer.

The repository provides one abstract contract (`RadioInterface`, in Spanish:
`iniciar` / `enviar` / `hayDatosDisponibles` / `leer` / `dormir` / `despertar`)
and three concrete drivers: `LoraRadio` (spread-spectrum packet radio),
`NrfRadio` (acknowledged packet radio, NRF24L01) and `XBeeRadio` (transparent
byte stream over a UART).  The vendor chip libraries, the duplex byte channel
and the pin/clock services are external collaborators; they are modelled here
as explicit environment values (oracles for their reported results) and the
drivers are embedded as pure functions that also return the trace of provider
calls they perform, so the interaction with the provider is itself provable.
-/

/-- Arduino digital level LOW (0). -/
def LOW : Nat := 0

/-- Arduino digital level HIGH (1). -/
def HIGH : Nat := 1

/-! ### LoRa provider model and `LoraRadio` (src/src/LoraRadio.h) -/

/-- State of the modelled LoRa provider: `fifo` holds the still-drainable bytes
of the most recently parsed packet, `pending` an optionally present fully
received packet that `parsePacket` has not yet reported. -/
structure LoRaState where
  fifo : List Nat
  pending : Option (List Nat)
deriving Repr, DecidableEq

/-- Modelled from the spec: the vendor LoRa library's packet-detection primitive
(`LoRa.parsePacket`) is not part of this repository.  Per the spec it reports
the size of a newly completed packet and makes its bytes drainable, reports 0
when no new packet is ready, and any undrained remainder of a previously parsed
packet is irretrievably dropped from the FIFO, never buffered for a later read. -/
def LoRa.parsePacket (s : LoRaState) : Nat × LoRaState :=
  match s.pending with
  | some p => (p.length, { fifo := p, pending := none })
  | none => (0, { fifo := [], pending := none })

/-- Loop of `LoraRadio::leer` (src/src/LoraRadio.h:111-118): while the provider
reports bytes available and fewer than `maxLongitud` bytes have been copied,
drain one byte into the caller's buffer.  Returns the count of bytes copied,
the bytes written to the caller's buffer, and the remaining provider FIFO. -/
def LoraRadio.leerAux : List Nat → Nat → Nat × List Nat × List Nat
  | fifo, 0 => (0, [], fifo)
  | [], _ + 1 => (0, [], [])
  | b :: rest, n + 1 =>
      let r := LoraRadio.leerAux rest n
      (r.1 + 1, b :: r.2.1, r.2.2)

/-- Embedding of `LoraRadio::leer` (src/src/LoraRadio.h:111-118): returns the
byte count reported to the caller, the bytes written into the caller's buffer,
and the provider state after the drain. -/
def LoraRadio.leer (s : LoRaState) (maxLongitud : Nat) : Nat × List Nat × LoRaState :=
  let r := LoraRadio.leerAux s.fifo maxLongitud
  (r.1, r.2.1, { s with fifo := r.2.2 })

/-- Embedding of `LoraRadio::hayDatosDisponibles` (src/src/LoraRadio.h:98-100):
a single call to the provider's `parsePacket`. -/
def LoraRadio.hayDatosDisponibles (s : LoRaState) : Nat × LoRaState :=
  LoRa.parsePacket s

/-! ### NRF24 provider model and `NrfRadio` (src/src/NrfRadio.h) -/

/-- Native data-rate encoding of the RF24 provider. -/
inductive NrfDataRate where
  | kbps250
  | mbps1
  | mbps2
deriving Repr, DecidableEq

/-- One call into the RF24 provider, as issued by `NrfRadio`. -/
inductive NrfCall where
  | begin
  | setChannel (c : Nat)
  | setDataRate (r : NrfDataRate)
  | setPALevel (level : Int)
  | enableDynamicPayloads
  | openWritingPipe (addr : List Nat)
  | openReadingPipe (pipe : Nat) (addr : List Nat)
  | startListening
  | stopListening
  | write (data : List Nat)
  | getDynamicPayloadSize
  | read (n : Nat)
deriving Repr, DecidableEq

/-- Embedding of `NrfConfig` (src/src/NrfRadio.h:21-29).  `dataRate` is the
generic `uint16_t` selector (250, 1 or 2), `paLevel` the generic `int8_t`
selector (0..3 per its documentation). -/
structure NrfConfig where
  cePin : Nat
  csnPin : Nat
  writeAddress : List Nat
  readAddress : List Nat
  channel : Nat
  dataRate : Nat
  paLevel : Int
deriving Repr, DecidableEq

/-- Oracle for the RF24 provider's reported results: whether `begin` succeeds,
whether the acknowledged `write` reports an ACK, the dynamic payload size it
reports, and the payload bytes its drain primitive can deliver. -/
structure NrfEnv where
  beginOk : Bool
  writeAck : Bool
  dynamicPayloadSize : Nat
  payload : List Nat
deriving Repr, DecidableEq

/-- Listening/transmitting state of the RF24 transport. -/
structure NrfState where
  listening : Bool
deriving Repr, DecidableEq

/-- Provider primitive `stopListening`: leaves listening mode. -/
def NrfRadio.stopListening (s : NrfState) : NrfState :=
  { s with listening := false }

/-- Provider primitive `startListening`: enters listening mode. -/
def NrfRadio.startListening (s : NrfState) : NrfState :=
  { s with listening := true }

/-- Embedding of `NrfRadio::iniciar` (src/src/NrfRadio.h:67-97): returns the
reported success and the trace of provider calls.  The data-rate selector is
translated (250 ↦ 250KBPS, 2 ↦ 2MBPS, anything else ↦ 1MBPS); the power-level
selector is cast directly and passed through unchanged. -/
def NrfRadio.iniciar (cfg : NrfConfig) (env : NrfEnv) : Bool × List NrfCall :=
  if !env.beginOk then
    (false, [NrfCall.begin])
  else
    let rate :=
      if cfg.dataRate = 250 then NrfDataRate.kbps250
      else if cfg.dataRate = 2 then NrfDataRate.mbps2
      else NrfDataRate.mbps1
    (true,
      [NrfCall.begin, NrfCall.setChannel cfg.channel, NrfCall.setDataRate rate,
       NrfCall.setPALevel cfg.paLevel, NrfCall.enableDynamicPayloads,
       NrfCall.openWritingPipe cfg.writeAddress,
       NrfCall.openReadingPipe 1 cfg.readAddress, NrfCall.startListening])

/-- Embedding of `NrfRadio::enviar` (src/src/NrfRadio.h:107-114): stop
listening, perform the acknowledged `write`, resume listening, and return the
acknowledgment result together with the final transport state and the trace. -/
def NrfRadio.enviar (s : NrfState) (env : NrfEnv) (buffer : List Nat) :
    Bool × NrfState × List NrfCall :=
  let s1 := NrfRadio.stopListening s
  let ok := env.writeAck
  let s2 := NrfRadio.startListening s1
  (ok, s2, [NrfCall.stopListening, NrfCall.write buffer, NrfCall.startListening])

/-- Embedding of `NrfRadio::leer` (src/src/NrfRadio.h:137-150): returns the byte
count reported to the caller, the bytes written into the caller's buffer (the
drain primitive delivers at most the bytes it reports), and the trace of
provider calls. -/
def NrfRadio.leer (env : NrfEnv) (maxLongitud : Nat) : Nat × List Nat × List NrfCall :=
  let payloadSize := env.dynamicPayloadSize
  if payloadSize = 0 then
    (0, [], [NrfCall.getDynamicPayloadSize])
  else
    let bytesALeer := min payloadSize maxLongitud
    (bytesALeer, env.payload.take bytesALeer,
      [NrfCall.getDynamicPayloadSize, NrfCall.read bytesALeer])

/-! ### Stream/pin model and `XBeeRadio` (src/src/XbeeRadio.h) -/

/-- Embedding of the `XBeeRadio` constructor arguments (src/src/XbeeRadio.h:57-61):
the `int8_t` pin identifiers use the sentinel value -1 for "unset". -/
structure XBeeConfig where
  baudios : Int
  pinSleepRq : Int
  pinOnSleep : Int
deriving Repr, DecidableEq

/-- Inner loop of `XBeeRadio::_esperarEstadoPin`: at elapsed time `t` with
`fuel` milliseconds left before the timeout, read the confirmation pin once per
millisecond until it shows the desired level. -/
def esperarAux (lvl : Nat → Nat) (desired : Nat) : Nat → Nat → Bool
  | _, 0 => false
  | t, fuel + 1 => if lvl t = desired then true else esperarAux lvl desired (t + 1) fuel

/-- Embedding of `XBeeRadio::_esperarEstadoPin` (src/src/XbeeRadio.h:37-46):
a blocking poll of the confirmation pin, bounded by `timeout_ms`; `lvl` gives
the pin level at each millisecond after the call. -/
def XBeeRadio.esperarEstadoPin (lvl : Nat → Nat) (desired : Nat) (timeout_ms : Nat) : Bool :=
  esperarAux lvl desired 0 timeout_ms

/-- Embedding of `XBeeRadio::dormir` (src/src/XbeeRadio.h:90-99): returns the
result and the list of pin writes performed, as (pin, level) pairs. -/
def XBeeRadio.dormir (cfg : XBeeConfig) (onSleepLvl : Nat → Nat) : Bool × List (Int × Nat) :=
  if cfg.pinSleepRq < 0 then (true, [])
  else if cfg.pinOnSleep < 0 then (true, [(cfg.pinSleepRq, LOW)])
  else (XBeeRadio.esperarEstadoPin onSleepLvl LOW 200, [(cfg.pinSleepRq, LOW)])

/-- Embedding of `XBeeRadio::despertar` (src/src/XbeeRadio.h:108-117): returns
the result and the list of pin writes performed, as (pin, level) pairs. -/
def XBeeRadio.despertar (cfg : XBeeConfig) (onSleepLvl : Nat → Nat) : Bool × List (Int × Nat) :=
  if cfg.pinSleepRq < 0 then (true, [])
  else if cfg.pinOnSleep < 0 then (true, [(cfg.pinSleepRq, HIGH)])
  else (XBeeRadio.esperarEstadoPin onSleepLvl HIGH 200, [(cfg.pinSleepRq, HIGH)])

/-- Embedding of `XBeeRadio::iniciar` (src/src/XbeeRadio.h:71-81): configures
the pin modes, calls `despertar` discarding its boolean result, and returns
true; the pin writes of the discarded `despertar` call are reported. -/
def XBeeRadio.iniciar (cfg : XBeeConfig) (onSleepLvl : Nat → Nat) : Bool × List (Int × Nat) :=
  let w := XBeeRadio.despertar cfg onSleepLvl
  (true, w.2)

/-- State of the modelled duplex byte channel: the bytes currently buffered for
reception and the number of outgoing bytes the channel will accept on the next
write. -/
structure StreamState where
  rxBuffer : List Nat
  txAccept : Nat
deriving Repr, DecidableEq

/-- One call into the duplex byte channel, as issued by `XBeeRadio::enviar`;
`write` records the offered bytes and the count the channel accepted. -/
inductive StreamCall where
  | write (data : List Nat) (accepted : Nat)
  | flush
deriving Repr, DecidableEq

/-- Embedding of `XBeeRadio::enviar` (src/src/XbeeRadio.h:127-135): the channel
accepts `min longitud txAccept` of the offered bytes, the driver then performs
the blocking flush, and reports success iff the accepted count equals the
requested count. -/
def XBeeRadio.enviar (st : StreamState) (buffer : List Nat) : Bool × List StreamCall :=
  let bytesEscritos := min buffer.length st.txAccept
  (bytesEscritos == buffer.length,
    [StreamCall.write buffer bytesEscritos, StreamCall.flush])

/-- Embedding of `XBeeRadio::hayDatosDisponibles` (src/src/XbeeRadio.h:141-143):
the count of bytes currently buffered by the channel. -/
def XBeeRadio.hayDatosDisponibles (st : StreamState) : Nat :=
  st.rxBuffer.length

/-- Embedding of `XBeeRadio::leer` (src/src/XbeeRadio.h:153-166): returns the
byte count reported to the caller, the bytes written into the caller's buffer,
and the channel state afterwards; `readBytes` on `bytesALeer ≤` available bytes
returns immediately with exactly those bytes. -/
def XBeeRadio.leer (st : StreamState) (maxLongitud : Nat) : Nat × List Nat × StreamState :=
  if maxLongitud = 0 then (0, [], st)
  else
    let bytesDisponibles := st.rxBuffer.length
    if bytesDisponibles > 0 then
      let bytesALeer := min bytesDisponibles maxLongitud
      (bytesALeer, st.rxBuffer.take bytesALeer,
        { st with rxBuffer := st.rxBuffer.drop bytesALeer })
    else (0, [], st)

/-! ### Decoding facade (src/src/RadioInterface.h) -/

/-- Embedding of `RadioInterface::leerComoString` (src/src/RadioInterface.h:122-132).
The driver's virtual `leer` is abstracted as `leerFn`, mapping a requested
capacity to the returned byte count and the bytes written into the caller's
buffer; `initBuf` is the arbitrary initial content of the 256-byte stack
scratch buffer.  Returns the scratch capacity, the index at which the NUL
terminator is written, and the produced text: the scratch-buffer bytes before
the first NUL, as the `String` constructor reads them. -/
def RadioInterface.leerComoString (leerFn : Nat → Nat × List Nat) (initBuf : List Nat) :
    Nat × Nat × List Nat :=
  let r := leerFn 255
  let longitud := r.1
  let buffer := r.2 ++ initBuf.drop r.2.length
  let buffer2 := buffer.set longitud 0
  (256, longitud, buffer2.takeWhile (fun b => b != 0))

/-! ### Helper lemmas -/

/-- Closed form of the `LoraRadio::leer` drain loop: it copies the first
`min fifo.length m` bytes and leaves the rest of the FIFO. -/
theorem LoraRadio.leerAux_spec (fifo : List Nat) (m : Nat) :
    LoraRadio.leerAux fifo m = (min fifo.length m, fifo.take m, fifo.drop m) := by
  induction fifo generalizing m with
  | nil => cases m <;> simp [LoraRadio.leerAux]
  | cons b rest ih =>
      cases m with
      | zero => simp [LoraRadio.leerAux]
      | succ n => simp [LoraRadio.leerAux, ih, Nat.succ_min_succ]

/-- The bounded pin poll succeeds iff the pin shows the desired level at some
millisecond before the fuel runs out. -/
theorem esperarAux_iff (lvl : Nat → Nat) (d : Nat) (fuel t : Nat) :
    esperarAux lvl d t fuel = true ↔ ∃ k, k < fuel ∧ lvl (t + k) = d := by
  induction fuel generalizing t with
  | zero => simp [esperarAux]
  | succ n ih =>
      simp only [esperarAux]
      by_cases h : lvl t = d
      · simp only [h, if_true, true_iff]
        exact ⟨0, Nat.succ_pos n, by simpa using h⟩
      · simp only [h, if_false, ih]
        constructor
        · rintro ⟨k, hk, hval⟩
          exact ⟨k + 1, by omega, by rw [show t + (k + 1) = t + 1 + k by omega]; exact hval⟩
        · rintro ⟨k, hk, hval⟩
          cases k with
          | zero => exact absurd (by simpa using hval) h
          | succ j =>
              exact ⟨j, by omega, by rw [show t + 1 + j = t + (j + 1) by omega]; exact hval⟩

/-- `XBeeRadio::_esperarEstadoPin` succeeds iff the pin shows the desired level
at some millisecond strictly before the timeout. -/
theorem esperarEstadoPin_iff (lvl : Nat → Nat) (d : Nat) (timeout : Nat) :
    XBeeRadio.esperarEstadoPin lvl d timeout = true ↔ ∃ k, k < timeout ∧ lvl k = d := by
  simpa using esperarAux_iff lvl d timeout 0

/-- If a list holds a 0 at index `n`, the bytes before its first 0 number at
most `n`. -/
theorem takeWhile_ne_zero_length_le (l : List Nat) (n : Nat) (h : l.get? n = some 0) :
    (l.takeWhile (fun b => b != 0)).length ≤ n := by
  induction l generalizing n with
  | nil => simp at h
  | cons a tl ih =>
      cases n with
      | zero =>
          simp only [List.get?_cons_zero, Option.some_inj] at h
          subst h
          simp [List.takeWhile_cons]
      | succ m =>
          simp only [List.get?_cons_succ] at h
          by_cases ha : a = 0
          · simp [List.takeWhile_cons, ha]
          · simpa [List.takeWhile_cons, ha, Nat.succ_le_succ_iff] using ih m h

/-! ### Claim theorems -/

/-- C1: for every driver, the result `r` of `read(buffer, maxLength)` satisfies
`0 ≤ r ≤ maxLength` (the `0 ≤ r` half holds by the `Nat` return type, matching
`size_t`); the modelled provider drain primitives deliver at most the bytes
they report. -/
theorem C1_read_result_bounded (s : LoRaState) (env : NrfEnv) (st : StreamState)
    (maxLongitud : Nat) :
    (LoraRadio.leer s maxLongitud).1 ≤ maxLongitud ∧
    (NrfRadio.leer env maxLongitud).1 ≤ maxLongitud ∧
    (XBeeRadio.leer st maxLongitud).1 ≤ maxLongitud := by
  refine ⟨?_, ?_, ?_⟩
  · simp only [LoraRadio.leer, LoraRadio.leerAux_spec]
    omega
  · by_cases h : env.dynamicPayloadSize = 0 <;> simp [NrfRadio.leer, h]
  · by_cases h : maxLongitud = 0
    · simp [XBeeRadio.leer, h]
    · by_cases h2 : st.rxBuffer.length > 0 <;> simp [XBeeRadio.leer, h, h2]

/-- C2: `NrfRadio::enviar` performs stop-listening, then the acknowledged
write, then start-listening; it returns the acknowledgment result of the write
and always leaves the transport listening, whether the write succeeded or
timed out. -/
theorem C2_send_resumes_listening (s : NrfState) (env : NrfEnv) (buffer : List Nat) :
    NrfRadio.enviar s env buffer =
      (env.writeAck, { listening := true },
        [NrfCall.stopListening, NrfCall.write buffer, NrfCall.startListening]) := rfl

/-- C3 (counterexample): with the out-of-enumeration power level 4, `iniciar`
succeeds and passes 4 through to the provider unchanged — it is neither
rejected nor mapped to a defined default. -/
theorem C3_pa_level_counterexample :
    (NrfRadio.iniciar ⟨7, 8, [1, 2, 3, 4, 5], [6, 7, 8, 9, 10], 76, 1, 4⟩
        ⟨true, true, 0, []⟩).1 = true ∧
    NrfCall.setPALevel 4 ∈
      (NrfRadio.iniciar ⟨7, 8, [1, 2, 3, 4, 5], [6, 7, 8, 9, 10], 76, 1, 4⟩
        ⟨true, true, 0, []⟩).2 ∧
    ¬ (0 ≤ (4 : Int) ∧ (4 : Int) ≤ 3) := by
  refine ⟨rfl, by decide, by decide⟩

/-- C3 (amended): whenever the provider's `begin` succeeds, `iniciar` passes
the configured power-level selector to the provider unchanged, whatever its
value; no rejection or remapping happens in the driver. -/
theorem C3_pa_level_passed_through (cfg : NrfConfig) (env : NrfEnv)
    (h : env.beginOk = true) :
    NrfCall.setPALevel cfg.paLevel ∈ (NrfRadio.iniciar cfg env).2 := by
  simp [NrfRadio.iniciar, h]

/-- C3 witness: the amended theorem applied at a concrete configuration. -/
theorem C3_pa_level_passed_through_witness :
    (NrfEnv.mk true true 0 []).beginOk = true ∧
    NrfCall.setPALevel 4 ∈
      (NrfRadio.iniciar ⟨7, 8, [1, 2, 3, 4, 5], [6, 7, 8, 9, 10], 76, 1, 4⟩
        ⟨true, true, 0, []⟩).2 :=
  ⟨rfl, C3_pa_level_passed_through ⟨7, 8, [1, 2, 3, 4, 5], [6, 7, 8, 9, 10], 76, 1, 4⟩
    ⟨true, true, 0, []⟩ rfl⟩

/-- C4: for every data-rate selector that is neither 250 nor 2, a successful
`iniciar` configures the provider with the medium rate (1 Mbps) and still
reports success. -/
theorem C4_data_rate_medium_default (cfg : NrfConfig) (env : NrfEnv)
    (hb : env.beginOk = true) (h250 : cfg.dataRate ≠ 250) (h2 : cfg.dataRate ≠ 2) :
    NrfCall.setDataRate NrfDataRate.mbps1 ∈ (NrfRadio.iniciar cfg env).2 ∧
    (NrfRadio.iniciar cfg env).1 = true := by
  constructor
  · simp [NrfRadio.iniciar, hb, h250, h2]
  · simp [NrfRadio.iniciar, hb]

/-- C4 witness: the theorem applied at the selector value 7. -/
theorem C4_data_rate_medium_default_witness :
    ((NrfEnv.mk true true 0 []).beginOk = true ∧ (7 : Nat) ≠ 250 ∧ (7 : Nat) ≠ 2) ∧
    NrfCall.setDataRate NrfDataRate.mbps1 ∈
      (NrfRadio.iniciar ⟨7, 8, [1, 2, 3, 4, 5], [6, 7, 8, 9, 10], 76, 7, 0⟩
        ⟨true, true, 0, []⟩).2 :=
  ⟨⟨rfl, by decide, by decide⟩,
    (C4_data_rate_medium_default ⟨7, 8, [1, 2, 3, 4, 5], [6, 7, 8, 9, 10], 76, 7, 0⟩
      ⟨true, true, 0, []⟩ rfl (by decide) (by decide)).1⟩

/-- C5: the three pin-configuration cases of `XBeeRadio::dormir` and
`XBeeRadio::despertar`: no sleep-request pin — both return true writing no pin;
sleep-request pin without confirmation pin — both drive the request pin and
return true unverified; both pins — both drive the request pin and return true
exactly when the confirmation pin reaches the expected level (LOW for sleep,
HIGH for wake) within the 200 ms timeout. -/
theorem C5_sleep_wake_pin_cases (cfg : XBeeConfig) (lvl : Nat → Nat) :
    (cfg.pinSleepRq < 0 →
      XBeeRadio.dormir cfg lvl = (true, []) ∧
      XBeeRadio.despertar cfg lvl = (true, [])) ∧
    (0 ≤ cfg.pinSleepRq → cfg.pinOnSleep < 0 →
      XBeeRadio.dormir cfg lvl = (true, [(cfg.pinSleepRq, LOW)]) ∧
      XBeeRadio.despertar cfg lvl = (true, [(cfg.pinSleepRq, HIGH)])) ∧
    (0 ≤ cfg.pinSleepRq → 0 ≤ cfg.pinOnSleep →
      ((XBeeRadio.dormir cfg lvl).1 = true ↔ ∃ t, t < 200 ∧ lvl t = LOW) ∧
      (XBeeRadio.dormir cfg lvl).2 = [(cfg.pinSleepRq, LOW)] ∧
      ((XBeeRadio.despertar cfg lvl).1 = true ↔ ∃ t, t < 200 ∧ lvl t = HIGH) ∧
      (XBeeRadio.despertar cfg lvl).2 = [(cfg.pinSleepRq, HIGH)]) := by
  refine ⟨?_, ?_, ?_⟩
  · intro h
    constructor <;> simp [XBeeRadio.dormir, XBeeRadio.despertar, h]
  · intro h1 h2
    constructor <;>
      simp [XBeeRadio.dormir, XBeeRadio.despertar, not_lt.mpr h1, h2]
  · intro h1 h3
    have hd : ¬ cfg.pinSleepRq < 0 := not_lt.mpr h1
    have hc : ¬ cfg.pinOnSleep < 0 := not_lt.mpr h3
    refine ⟨?_, ?_, ?_, ?_⟩
    · simp [XBeeRadio.dormir, hd, hc, esperarEstadoPin_iff]
    · simp [XBeeRadio.dormir, hd, hc]
    · simp [XBeeRadio.despertar, hd, hc, esperarEstadoPin_iff]
    · simp [XBeeRadio.despertar, hd, hc]

/-- C5 witness: the three cases instantiated — no request pin; request pin
only; both pins with the confirmation pin stuck at HIGH, so `dormir` times out
(false) while `despertar` confirms at once (true). -/
theorem C5_sleep_wake_pin_cases_witness :
    XBeeRadio.dormir ⟨9600, -1, -1⟩ (fun _ => HIGH) = (true, []) ∧
    XBeeRadio.dormir ⟨9600, 5, -1⟩ (fun _ => HIGH) = (true, [(5, LOW)]) ∧
    (XBeeRadio.dormir ⟨9600, 5, 6⟩ (fun _ => HIGH)).1 = false ∧
    (XBeeRadio.despertar ⟨9600, 5, 6⟩ (fun _ => HIGH)).1 = true := by
  have hA := (C5_sleep_wake_pin_cases ⟨9600, -1, -1⟩ (fun _ => HIGH)).1 (by norm_num)
  have hB :=
    (C5_sleep_wake_pin_cases ⟨9600, 5, -1⟩ (fun _ => HIGH)).2.1 (by norm_num) (by norm_num)
  have hC :=
    (C5_sleep_wake_pin_cases ⟨9600, 5, 6⟩ (fun _ => HIGH)).2.2 (by norm_num) (by norm_num)
  refine ⟨hA.1, hB.1, ?_, ?_⟩
  · rw [Bool.eq_false_iff]
    intro ht
    obtain ⟨t, -, hlv⟩ := hC.1.mp ht
    simp [HIGH, LOW] at hlv
  · exact hC.2.2.1.mpr ⟨0, by norm_num, rfl⟩

/-- C6: after `LoraRadio::leer` truncates a packet longer than `maxLength` to
`maxLength` bytes, the tail is unrecoverable: the following poll returns 0 and
a read after that yields no bytes (Scenario B is the instance packet
`[1,2,3,4,5]`, `maxLength = 2`). -/
theorem C6_truncated_tail_unrecoverable (packet : List Nat) (maxLongitud k : Nat)
    (h : maxLongitud < packet.length) :
    (LoraRadio.leer ⟨packet, none⟩ maxLongitud).1 = maxLongitud ∧
    (LoraRadio.leer ⟨packet, none⟩ maxLongitud).2.1 = packet.take maxLongitud ∧
    (LoraRadio.hayDatosDisponibles (LoraRadio.leer ⟨packet, none⟩ maxLongitud).2.2).1 = 0 ∧
    (LoraRadio.leer
      (LoraRadio.hayDatosDisponibles (LoraRadio.leer ⟨packet, none⟩ maxLongitud).2.2).2
      k).1 = 0 := by
  refine ⟨?_, ?_, ?_, ?_⟩
  · simp only [LoraRadio.leer, LoraRadio.leerAux_spec]
    omega
  · simp [LoraRadio.leer, LoraRadio.leerAux_spec]
  · simp [LoraRadio.leer, LoraRadio.leerAux_spec, LoraRadio.hayDatosDisponibles,
      LoRa.parsePacket]
  · simp [LoraRadio.leer, LoraRadio.leerAux_spec, LoraRadio.hayDatosDisponibles,
      LoRa.parsePacket]

/-- C6 witness: Scenario B — a 5-byte packet read with `maxLength = 2` returns
2, the following poll returns 0, and a further read returns 0 bytes. -/
theorem C6_truncated_tail_unrecoverable_witness :
    2 < ([1, 2, 3, 4, 5] : List Nat).length ∧
    (LoraRadio.leer ⟨[1, 2, 3, 4, 5], none⟩ 2).1 = 2 ∧
    (LoraRadio.hayDatosDisponibles (LoraRadio.leer ⟨[1, 2, 3, 4, 5], none⟩ 2).2.2).1 = 0 ∧
    (LoraRadio.leer
      (LoraRadio.hayDatosDisponibles (LoraRadio.leer ⟨[1, 2, 3, 4, 5], none⟩ 2).2.2).2
      10).1 = 0 :=
  ⟨by decide,
    (C6_truncated_tail_unrecoverable [1, 2, 3, 4, 5] 2 10 (by decide)).1,
    (C6_truncated_tail_unrecoverable [1, 2, 3, 4, 5] 2 10 (by decide)).2.2.1,
    (C6_truncated_tail_unrecoverable [1, 2, 3, 4, 5] 2 10 (by decide)).2.2.2⟩

/-- C7: `XBeeRadio::enviar` offers the bytes to the channel, then flushes, and
returns true exactly when the channel accepted all `longitud` requested
bytes. -/
theorem C7_send_writes_flushes_exact_count (st : StreamState) (buffer : List Nat) :
    (XBeeRadio.enviar st buffer).2 =
      [StreamCall.write buffer (min buffer.length st.txAccept), StreamCall.flush] ∧
    ((XBeeRadio.enviar st buffer).1 = true ↔
      min buffer.length st.txAccept = buffer.length) := by
  constructor
  · rfl
  · simp [XBeeRadio.enviar]

/-- C8: the decoding facade uses a 256-byte scratch buffer, consumes only the
`read` call at the reduced capacity 255, writes the terminator at the index
equal to the returned length — in bounds whenever the driver returns at most
the requested capacity — and the produced text holds at most that many bytes,
so any longer payload is silently truncated. -/
theorem C8_decode_facade_bounded (leerFn : Nat → Nat × List Nat) (initBuf : List Nat)
    (hbuf : initBuf.length = 256)
    (hr : (leerFn 255).1 ≤ 255)
    (hd : (leerFn 255).2.length = (leerFn 255).1) :
    (RadioInterface.leerComoString leerFn initBuf).1 = 256 ∧
    (RadioInterface.leerComoString leerFn initBuf).2.1 = (leerFn 255).1 ∧
    (RadioInterface.leerComoString leerFn initBuf).2.1 < 256 ∧
    (RadioInterface.leerComoString leerFn initBuf).2.2.length ≤ (leerFn 255).1 ∧
    (∀ g : Nat → Nat × List Nat, g 255 = leerFn 255 →
      RadioInterface.leerComoString g initBuf =
        RadioInterface.leerComoString leerFn initBuf) := by
  refine ⟨rfl, rfl, hr.trans_lt (by norm_num), ?_, ?_⟩
  · have hlen : ((leerFn 255).2 ++ initBuf.drop (leerFn 255).2.length).length = 256 := by
      rw [List.length_append, List.length_drop]
      omega
    have hget :
        (((leerFn 255).2 ++ initBuf.drop (leerFn 255).2.length).set (leerFn 255).1 0).get?
          (leerFn 255).1 = some 0 := by
      rw [List.get?_eq_getElem?]
      exact List.getElem?_set_eq_of_lt 0 (by omega)
    exact takeWhile_ne_zero_length_le _ _ hget
  · intro g hg
    simp only [RadioInterface.leerComoString, hg]

set_option maxRecDepth 4000 in
/-- C8 witness: the facade over the Acknowledged driver and a 300-byte payload
of the byte 65 — the driver returns 255 bytes, the terminator lands at the
in-bounds index 255, and the produced text holds at most 255 bytes. -/
theorem C8_decode_facade_bounded_witness :
    ((NrfRadio.leer ⟨true, true, 300, List.replicate 300 65⟩ 255).1 ≤ 255 ∧
      (NrfRadio.leer ⟨true, true, 300, List.replicate 300 65⟩ 255).2.1.length =
        (NrfRadio.leer ⟨true, true, 300, List.replicate 300 65⟩ 255).1) ∧
    (RadioInterface.leerComoString
      (fun m => ((NrfRadio.leer ⟨true, true, 300, List.replicate 300 65⟩ m).1,
        (NrfRadio.leer ⟨true, true, 300, List.replicate 300 65⟩ m).2.1))
      (List.replicate 256 7)).2.1 = 255 ∧
    (RadioInterface.leerComoString
      (fun m => ((NrfRadio.leer ⟨true, true, 300, List.replicate 300 65⟩ m).1,
        (NrfRadio.leer ⟨true, true, 300, List.replicate 300 65⟩ m).2.1))
      (List.replicate 256 7)).2.1 < 256 ∧
    (RadioInterface.leerComoString
      (fun m => ((NrfRadio.leer ⟨true, true, 300, List.replicate 300 65⟩ m).1,
        (NrfRadio.leer ⟨true, true, 300, List.replicate 300 65⟩ m).2.1))
      (List.replicate 256 7)).2.2.length ≤ 255 := by
  have h := C8_decode_facade_bounded
    (fun m => ((NrfRadio.leer ⟨true, true, 300, List.replicate 300 65⟩ m).1,
      (NrfRadio.leer ⟨true, true, 300, List.replicate 300 65⟩ m).2.1))
    (List.replicate 256 7) (by decide) (by decide) (by decide)
  refine ⟨⟨by decide, by decide⟩, ?_, h.2.2.1, ?_⟩
  · rw [h.2.1]
    decide
  · exact le_trans h.2.2.2.1 (by decide)

/-- C9: `XBeeRadio::iniciar` returns true for every configuration and pin
environment; the boolean result of the `despertar` call it makes is discarded,
so a wake-confirmation timeout (confirmation pin configured but never HIGH) is
not reported as an initialization failure. -/
theorem C9_xbee_iniciar_always_true :
    (∀ (cfg : XBeeConfig) (lvl : Nat → Nat), (XBeeRadio.iniciar cfg lvl).1 = true) ∧
    (XBeeRadio.despertar ⟨9600, 5, 6⟩ (fun _ => LOW)).1 = false ∧
    (XBeeRadio.iniciar ⟨9600, 5, 6⟩ (fun _ => LOW)).1 = true := by
  refine ⟨fun cfg lvl => rfl, ?_, rfl⟩
  rw [Bool.eq_false_iff]
  intro ht
  have hmem :
      (XBeeRadio.despertar ⟨9600, 5, 6⟩ (fun _ => LOW)).1 =
        XBeeRadio.esperarEstadoPin (fun _ => LOW) HIGH 200 := by
    simp [XBeeRadio.despertar]
  rw [hmem] at ht
  obtain ⟨k, -, hk⟩ := (esperarEstadoPin_iff (fun _ => LOW) HIGH 200).mp ht
  simp [LOW, HIGH] at hk

/-- C10: when the provider reports a dynamic payload size of 0, `NrfRadio::leer`
returns 0, writes nothing into the caller's buffer, and issues no drain call,
for every `maxLongitud` including 0. -/
theorem C10_nrf_read_without_payload (env : NrfEnv) (maxLongitud : Nat)
    (h : env.dynamicPayloadSize = 0) :
    NrfRadio.leer env maxLongitud = (0, [], [NrfCall.getDynamicPayloadSize]) := by
  simp [NrfRadio.leer, h]

/-- C10 witness: the theorem applied at a concrete provider state and
`maxLongitud = 0`. -/
theorem C10_nrf_read_without_payload_witness :
    (NrfEnv.mk true true 0 []).dynamicPayloadSize = 0 ∧
    NrfRadio.leer ⟨true, true, 0, []⟩ 0 = (0, [], [NrfCall.getDynamicPayloadSize]) :=
  ⟨rfl, C10_nrf_read_without_payload ⟨true, true, 0, []⟩ 0 rfl⟩
